import Mathlib

/-
  Shallow embedding of src/src/components/ContextMenu.tsx.

  The component's orchestration logic is asynchronous but strictly
  sequential: every command sent over the Command Channel
  (chrome.runtime.sendMessage) is awaited before the next action.  We
  model each handler as a pure function producing the ordered list of
  observable events it performs, together with a Boolean flag recording
  whether the handler terminated by an uncaught promise rejection
  ("threw").  The environment supplies the caller-provided planner
  (props.onNodeClick) and the orchestrator response for each command;
  a response is either a resolved value or a transport rejection.
-/

namespace ChatTree

/-- Navigation step instructions are opaque to this component; the code
only forwards them.  We model them as strings. -/
abbrev Step := String

/-- Commands sent over the Command Channel, mirroring the literal
payloads built in ContextMenu.tsx. -/
inductive Command where
  | executeSteps (steps : List Step) (requireCompletion : Bool)
  | editMessage (messageId : Option String) (message : String) (requireCompletion : Bool)
  | respondToMessage (childrenIds : Option (List String)) (message : String) (requireCompletion : Bool)
  | goToTarget (targetId : String)
  | createSubchat (parentMessageId : Option String)
  deriving DecidableEq

/-- A resolved orchestrator response.  The JavaScript response object is
dynamic; reading an absent field yields a falsy value, so we model all
fields the component ever reads, with absence expressed by the option
fields and by a false Boolean. -/
structure Response where
  completed : Bool
  error : Option String
  success : Bool
  subchatId : Option String
  deriving DecidableEq

/-- Outcome of one chrome.runtime.sendMessage call: either the promise
resolves with a response, or the transport itself rejects. -/
inductive SendResult where
  | ok (r : Response)
  | reject
  deriving DecidableEq

/-- Observable events, in program order: a call into selectBranch, a
command send, the structural-refresh notifier (props.onRefresh), the
full node-list refresh notifier (props.refreshNodes), the fixed settle
delay, a console.error log, the two Pending Edit State updates of the
send-flow cleanup, and opening a new tab. -/
inductive Event where
  | branchSelectCall
  | cmd (c : Command)
  | structuralRefresh
  | fullRefresh
  | sleep (ms : Nat)
  | log (msg : String)
  | closeInput
  | clearDraft
  | openTab (url : String)
  deriving DecidableEq

/-- The props consumed by the orchestration logic. -/
structure Props where
  messageId : Option String
  role : Option String
  message : Option String
  hidden : Bool
  childrenIds : Option (List String)
  deriving DecidableEq

/-- Pending Edit State: the two useState cells (showInput, inputValue). -/
structure EditState where
  showInput : Bool
  inputValue : String
  deriving DecidableEq

/-- The external collaborators: the planner (props.onNodeClick) and the
orchestrator behind chrome.runtime.sendMessage. -/
structure Env where
  planner : String → Option (List Step)
  respond : Command → SendResult

/-- JavaScript String.prototype.trim: strip leading and trailing
whitespace.  (Defined over the character list so that the kernel can
evaluate it.) -/
def jsTrim (s : String) : String :=
  String.mk (((s.data.dropWhile Char.isWhitespace).reverse.dropWhile Char.isWhitespace).reverse)

/-- Initial Pending Edit State from the useState initializers:
showInput starts false; inputValue starts from props.message for the
user role (empty when absent) and empty otherwise. -/
def initialState (p : Props) : EditState :=
  EditState.mk false (if p.role = some "user" then p.message.getD "" else "")

/-- handleActionClick: prefill the draft (props.message for role user,
empty otherwise) and show the input panel.  The previous state is
overwritten. -/
def handleActionClick (p : Props) (_st : EditState) : EditState :=
  EditState.mk true (if p.role = some "user" then p.message.getD "" else "")

/-- selectBranch.  Returns early (no commands) when props.messageId is
absent or the planner result is null/undefined; note that a present but
empty step list is truthy in JavaScript and is NOT short-circuited.
The try/catch swallows both a transport rejection and the explicit
throw on completed=false, so the function never rethrows (the flag in
the second component is false on every path).  The inner value models
the try block, whose flag records whether it threw into the catch. -/
def selectBranch (env : Env) (p : Props) : List Event × Bool :=
  match p.messageId with
  | none => ([Event.branchSelectCall], false)
  | some mid =>
    match env.planner mid with
    | none => ([Event.branchSelectCall], false)
    | some steps =>
      let execCmd := Command.executeSteps steps true
      let attempt : List Event × Bool :=
        match env.respond execCmd with
        | SendResult.reject => ([Event.cmd execCmd], true)
        | SendResult.ok r =>
          if r.completed then
            let gCmd := Command.goToTarget mid
            match env.respond gCmd with
            | SendResult.reject =>
                ([Event.cmd execCmd, Event.structuralRefresh, Event.cmd gCmd], true)
            | SendResult.ok _ =>
                ([Event.cmd execCmd, Event.structuralRefresh, Event.cmd gCmd], false)
          else
            ([Event.cmd execCmd], true)
      if attempt.2 then
        (Event.branchSelectCall :: attempt.1 ++ [Event.log "Error executing steps:"], false)
      else
        (Event.branchSelectCall :: attempt.1, false)

/-- editMessage.  When props.hidden, first awaits selectBranch.  Then
sends the editMessage command; a transport rejection propagates (no
try/catch here).  On completed=false it logs and stops; on success it
waits the 2000 ms settle delay and invokes the full refresh. -/
def editMessage (env : Env) (p : Props) (inputValue : String) : List Event × Bool :=
  let pre := if p.hidden then selectBranch env p else ([], false)
  if pre.2 then (pre.1, true)
  else
    let mCmd := Command.editMessage p.messageId inputValue true
    match env.respond mCmd with
    | SendResult.reject => (pre.1 ++ [Event.cmd mCmd], true)
    | SendResult.ok r =>
      if r.completed then
        (pre.1 ++ [Event.cmd mCmd, Event.sleep 2000, Event.fullRefresh], false)
      else
        (pre.1 ++ [Event.cmd mCmd, Event.log "Edit message failed:"], false)

/-- respondToMessage: same shape as editMessage with the
respondToMessage command payload. -/
def respondToMessage (env : Env) (p : Props) (inputValue : String) : List Event × Bool :=
  let pre := if p.hidden then selectBranch env p else ([], false)
  if pre.2 then (pre.1, true)
  else
    let mCmd := Command.respondToMessage p.childrenIds inputValue true
    match env.respond mCmd with
    | SendResult.reject => (pre.1 ++ [Event.cmd mCmd], true)
    | SendResult.ok r =>
      if r.completed then
        (pre.1 ++ [Event.cmd mCmd, Event.sleep 2000, Event.fullRefresh], false)
      else
        (pre.1 ++ [Event.cmd mCmd, Event.log "Response message failed:"], false)

/-- handleSend: short-circuit on a draft that trims to empty; otherwise
await selectBranch, dispatch on the role, then unconditionally close the
input, clear the draft and fire the full refresh.  An uncaught rejection
from the mutator aborts the flow before the cleanup, leaving the
Pending Edit State unchanged. -/
def handleSend (env : Env) (p : Props) (st : EditState) : List Event × EditState × Bool :=
  if jsTrim st.inputValue = "" then ([], st, false)
  else
    let sel := selectBranch env p
    if sel.2 then (sel.1, st, true)
    else
      let mres : List Event × Bool :=
        if p.role = some "user" then editMessage env p st.inputValue
        else if p.role = some "assistant" then respondToMessage env p st.inputValue
        else ([], false)
      if mres.2 then (sel.1 ++ mres.1, st, true)
      else
        (sel.1 ++ mres.1 ++ [Event.closeInput, Event.clearDraft, Event.fullRefresh],
         EditState.mk false "", false)

/-- JavaScript template-string rendering of a possibly absent value. -/
def jsStr : Option String → String
  | none => "undefined"
  | some s => s

/-- The subchat tab URL built by startSubchat. -/
def subchatUrl (parentId : Option String) (subId : Option String) : String :=
  "https://chatgpt.com/?subchat_parent=" ++ jsStr parentId ++ "&subchat_id=" ++ jsStr subId

/-- startSubchat: send createSubchat; on success=true open the subchat
tab; on success=false do nothing further (no log); a transport
rejection is caught and logged.  Never rethrows. -/
def startSubchat (env : Env) (p : Props) : List Event × Bool :=
  let cCmd := Command.createSubchat p.messageId
  match env.respond cCmd with
  | SendResult.reject => ([Event.cmd cCmd, Event.log "Error starting subchat:"], false)
  | SendResult.ok r =>
    if r.success then
      ([Event.cmd cCmd, Event.openTab (subchatUrl p.messageId r.subchatId)], false)
    else
      ([Event.cmd cCmd], false)

/-- The commands sent over the Command Channel within a trace. -/
def sentCommands (t : List Event) : List Command :=
  t.filterMap fun e => match e with | Event.cmd c => some c | _ => none

/-- Recognizes an executeSteps command event. -/
def isExecuteStepsCmd : Event → Bool
  | Event.cmd (Command.executeSteps _ _) => true
  | _ => false

/-- Recognizes a mutation command event (editMessage or respondToMessage). -/
def isMutationCmd : Event → Bool
  | Event.cmd (Command.editMessage _ _ _) => true
  | Event.cmd (Command.respondToMessage _ _ _) => true
  | _ => false

/-- Recognizes the marker recording an invocation of selectBranch. -/
def isBranchSelectCall : Event → Bool
  | Event.branchSelectCall => true
  | _ => false

/-- The completion flag carried by a send outcome (false on rejection). -/
def completedOf : SendResult → Bool
  | SendResult.ok r => r.completed
  | SendResult.reject => false

/-- The events visible to the collaborators: everything except the
internal invocation markers. -/
def observable (t : List Event) : List Event :=
  t.filter fun e => !(isBranchSelectCall e)

/- Concrete fixtures used to instantiate the theorems below. -/

/-- A response reporting full success. -/
def respOk : Response := Response.mk true none true (some "sub1")

/-- A response reporting logical failure. -/
def respFail : Response := Response.mk false (some "boom") false none

/-- Planner returning one step; orchestrator resolving every command
with success. -/
def envAllOk : Env := Env.mk (fun _ => some ["step1"]) (fun _ => SendResult.ok respOk)

/-- Planner returning a present but empty step list. -/
def envEmptyPlan : Env := Env.mk (fun _ => some []) (fun _ => SendResult.ok respOk)

/-- Planner returning no plan at all. -/
def envNoPlan : Env := Env.mk (fun _ => none) (fun _ => SendResult.ok respOk)

/-- Orchestrator rejecting the goToTarget send (transport failure) but
resolving everything else with success. -/
def envGotoReject : Env :=
  Env.mk (fun _ => some ["step1"]) fun c =>
    match c with
    | Command.goToTarget _ => SendResult.reject
    | _ => SendResult.ok respOk

/-- Orchestrator rejecting the executeSteps send (transport failure). -/
def envExecReject : Env :=
  Env.mk (fun _ => some ["step1"]) fun c =>
    match c with
    | Command.executeSteps _ _ => SendResult.reject
    | _ => SendResult.ok respOk

/-- Orchestrator failing the two mutation commands logically and
resolving everything else with success. -/
def envMutFail : Env :=
  Env.mk (fun _ => some ["step1"]) fun c =>
    match c with
    | Command.editMessage _ _ _ => SendResult.ok respFail
    | Command.respondToMessage _ _ _ => SendResult.ok respFail
    | _ => SendResult.ok respOk

/-- Orchestrator failing createSubchat logically. -/
def envSubFail : Env :=
  Env.mk (fun _ => some ["step1"]) fun c =>
    match c with
    | Command.createSubchat _ => SendResult.ok respFail
    | _ => SendResult.ok respOk

/-- Orchestrator rejecting the createSubchat send. -/
def envSubReject : Env :=
  Env.mk (fun _ => some ["step1"]) fun c =>
    match c with
    | Command.createSubchat _ => SendResult.reject
    | _ => SendResult.ok respOk

/-- Props of a visible user-authored node. -/
def propsUserVisible : Props :=
  Props.mk (some "m1") (some "user") (some "hello") false (some ["c1"])

/-- Props of a hidden user-authored node. -/
def propsUserHidden : Props :=
  Props.mk (some "m1") (some "user") (some "hello") true (some ["c1"])

/-- Props of a visible assistant-authored node. -/
def propsAsstVisible : Props :=
  Props.mk (some "m1") (some "assistant") (some "hello") false (some ["c1"])

/-- Props with an absent node reference. -/
def propsNoId : Props :=
  Props.mk none (some "user") (some "hello") false (some ["c1"])

/-- An open Pending Edit State with a non-blank draft. -/
def stOpen : EditState := EditState.mk true "draft"

/-- An open Pending Edit State with the draft of the end-to-end
scenario. -/
def stFixed : EditState := EditState.mk true "fixed text"

/-- Conclusion of claim C1: the selectBranch trace opens with its
invocation marker followed by the single executeSteps command; the rest
holds no further executeSteps; a goToTarget is present only when the
executeSteps response resolved with completed=true, in which case the
structural refresh and the goToTarget follow immediately, in that
order; and no structural refresh occurs without completed=true. -/
def C1Concl (env : Env) (p : Props) (mid : String) (steps : List Step) : Prop :=
  ∃ rest,
    (selectBranch env p).1 =
      Event.branchSelectCall :: Event.cmd (Command.executeSteps steps true) :: rest ∧
    (∀ s b, Event.cmd (Command.executeSteps s b) ∉ rest) ∧
    ((∃ tgt, Event.cmd (Command.goToTarget tgt) ∈ rest) →
       completedOf (env.respond (Command.executeSteps steps true)) = true) ∧
    (completedOf (env.respond (Command.executeSteps steps true)) = true →
       ∃ tail, rest = Event.structuralRefresh :: Event.cmd (Command.goToTarget mid) :: tail) ∧
    (completedOf (env.respond (Command.executeSteps steps true)) = false →
       Event.structuralRefresh ∉ rest)

/-- Conclusion of the amended claim C2: the handleSend trace splits into
the selectBranch trace followed by the remainder; selectBranch is
invoked exactly once, entirely before the single mutation command, and
the remainder contains no further selectBranch invocation. -/
def C2Concl (env : Env) (p : Props) (st : EditState) : Prop :=
  ∃ post,
    (handleSend env p st).1 = (selectBranch env p).1 ++ post ∧
    (selectBranch env p).1.countP isBranchSelectCall = 1 ∧
    (selectBranch env p).1.countP isMutationCmd = 0 ∧
    post.countP isBranchSelectCall = 0 ∧
    post.countP isMutationCmd = 1

/-- The call order claimed by C4 for the end-to-end user edit scenario. -/
def C4Order (mid : String) (s : Step) (draft : String) : List Event :=
  [Event.cmd (Command.executeSteps [s] true), Event.structuralRefresh,
   Event.cmd (Command.goToTarget mid),
   Event.cmd (Command.editMessage (some mid) draft true),
   Event.sleep 2000, Event.fullRefresh,
   Event.closeInput, Event.clearDraft, Event.fullRefresh]

/-- Conclusion of the amended claim C7: selectBranch never rethrows and
never fires the full refresh; a rejected executeSteps send yields only
the command and the log line (no refresh at all); a rejected goToTarget
send after completed=true yields the log line, but the structural
refresh has already fired before that send. -/
def C7Concl (env : Env) (p : Props) (mid : String) (steps : List Step) : Prop :=
  (selectBranch env p).2 = false ∧
  Event.fullRefresh ∉ (selectBranch env p).1 ∧
  (env.respond (Command.executeSteps steps true) = SendResult.reject →
     (selectBranch env p).1 =
       [Event.branchSelectCall, Event.cmd (Command.executeSteps steps true),
        Event.log "Error executing steps:"]) ∧
  (∀ r, env.respond (Command.executeSteps steps true) = SendResult.ok r → r.completed = true →
     env.respond (Command.goToTarget mid) = SendResult.reject →
     (selectBranch env p).1 =
       [Event.branchSelectCall, Event.cmd (Command.executeSteps steps true),
        Event.structuralRefresh, Event.cmd (Command.goToTarget mid),
        Event.log "Error executing steps:"])

/- Helper lemmas characterizing selectBranch case by case. -/

theorem selectBranch_absent (env : Env) (p : Props) (hm : p.messageId = none) :
    selectBranch env p = ([Event.branchSelectCall], false) := by
  unfold selectBranch
  rw [hm]

theorem selectBranch_noPlan (env : Env) (p : Props) (mid : String)
    (hm : p.messageId = some mid) (hp : env.planner mid = none) :
    selectBranch env p = ([Event.branchSelectCall], false) := by
  unfold selectBranch
  rw [hm]
  simp only [hp]

theorem selectBranch_execReject (env : Env) (p : Props) (mid : String) (steps : List Step)
    (hm : p.messageId = some mid) (hp : env.planner mid = some steps)
    (hr : env.respond (Command.executeSteps steps true) = SendResult.reject) :
    selectBranch env p =
      ([Event.branchSelectCall, Event.cmd (Command.executeSteps steps true),
        Event.log "Error executing steps:"], false) := by
  unfold selectBranch
  rw [hm]
  simp [hp, hr]

theorem selectBranch_execFailed (env : Env) (p : Props) (mid : String) (steps : List Step)
    (r : Response) (hm : p.messageId = some mid) (hp : env.planner mid = some steps)
    (hr : env.respond (Command.executeSteps steps true) = SendResult.ok r)
    (hc : r.completed = false) :
    selectBranch env p =
      ([Event.branchSelectCall, Event.cmd (Command.executeSteps steps true),
        Event.log "Error executing steps:"], false) := by
  unfold selectBranch
  rw [hm]
  simp only [hp, hr, hc]
  rfl

theorem selectBranch_success (env : Env) (p : Props) (mid : String) (steps : List Step)
    (r r2 : Response) (hm : p.messageId = some mid) (hp : env.planner mid = some steps)
    (hr : env.respond (Command.executeSteps steps true) = SendResult.ok r)
    (hc : r.completed = true)
    (hg : env.respond (Command.goToTarget mid) = SendResult.ok r2) :
    selectBranch env p =
      ([Event.branchSelectCall, Event.cmd (Command.executeSteps steps true),
        Event.structuralRefresh, Event.cmd (Command.goToTarget mid)], false) := by
  unfold selectBranch
  rw [hm]
  simp only [hp, hr, hc, hg]
  rfl

theorem selectBranch_gotoReject (env : Env) (p : Props) (mid : String) (steps : List Step)
    (r : Response) (hm : p.messageId = some mid) (hp : env.planner mid = some steps)
    (hr : env.respond (Command.executeSteps steps true) = SendResult.ok r)
    (hc : r.completed = true)
    (hg : env.respond (Command.goToTarget mid) = SendResult.reject) :
    selectBranch env p =
      ([Event.branchSelectCall, Event.cmd (Command.executeSteps steps true),
        Event.structuralRefresh, Event.cmd (Command.goToTarget mid),
        Event.log "Error executing steps:"], false) := by
  unfold selectBranch
  rw [hm]
  simp only [hp, hr, hc, hg]
  rfl

/-- Every run of selectBranch takes one of five concrete shapes and
never rethrows. -/
theorem selectBranch_spec (env : Env) (p : Props) :
    selectBranch env p = ([Event.branchSelectCall], false) ∨
    ∃ mid steps,
      p.messageId = some mid ∧ env.planner mid = some steps ∧
      (selectBranch env p =
         ([Event.branchSelectCall, Event.cmd (Command.executeSteps steps true),
           Event.log "Error executing steps:"], false) ∨
       selectBranch env p =
         ([Event.branchSelectCall, Event.cmd (Command.executeSteps steps true),
           Event.structuralRefresh, Event.cmd (Command.goToTarget mid)], false) ∨
       selectBranch env p =
         ([Event.branchSelectCall, Event.cmd (Command.executeSteps steps true),
           Event.structuralRefresh, Event.cmd (Command.goToTarget mid),
           Event.log "Error executing steps:"], false)) := by
  cases hm : p.messageId with
  | none => exact Or.inl (selectBranch_absent env p hm)
  | some mid =>
    cases hp : env.planner mid with
    | none => exact Or.inl (selectBranch_noPlan env p mid hm hp)
    | some steps =>
      refine Or.inr ⟨mid, steps, rfl, hp, ?_⟩
      cases hr : env.respond (Command.executeSteps steps true) with
      | reject => exact Or.inl (selectBranch_execReject env p mid steps hm hp hr)
      | ok r =>
        cases hc : r.completed with
        | false => exact Or.inl (selectBranch_execFailed env p mid steps r hm hp hr hc)
        | true =>
          cases hg : env.respond (Command.goToTarget mid) with
          | reject =>
            exact Or.inr (Or.inr (selectBranch_gotoReject env p mid steps r hm hp hr hc hg))
          | ok r2 =>
            exact Or.inr (Or.inl (selectBranch_success env p mid steps r r2 hm hp hr hc hg))

/-- selectBranch swallows every failure: it never rethrows. -/
theorem selectBranch_flag (env : Env) (p : Props) : (selectBranch env p).2 = false := by
  rcases selectBranch_spec env p with h | ⟨mid, steps, _, _, h | h | h⟩ <;> rw [h]

/-- selectBranch emits its invocation marker exactly once. -/
theorem selectBranch_one_marker (env : Env) (p : Props) :
    (selectBranch env p).1.countP isBranchSelectCall = 1 := by
  rcases selectBranch_spec env p with h | ⟨mid, steps, _, _, h | h | h⟩ <;>
    rw [h] <;> simp [isBranchSelectCall, List.countP_cons]

/-- selectBranch never sends a mutation command. -/
theorem selectBranch_no_mutation (env : Env) (p : Props) :
    (selectBranch env p).1.countP isMutationCmd = 0 := by
  rcases selectBranch_spec env p with h | ⟨mid, steps, _, _, h | h | h⟩ <;>
    rw [h] <;> simp [isMutationCmd, List.countP_cons]

/-- selectBranch never invokes the full node-list refresh. -/
theorem selectBranch_no_fullRefresh (env : Env) (p : Props) :
    Event.fullRefresh ∉ (selectBranch env p).1 := by
  rcases selectBranch_spec env p with h | ⟨mid, steps, _, _, h | h | h⟩ <;>
    rw [h] <;> simp

/-- selectBranch never waits a settle delay. -/
theorem selectBranch_no_sleep (env : Env) (p : Props) (ms : Nat) :
    Event.sleep ms ∉ (selectBranch env p).1 := by
  rcases selectBranch_spec env p with h | ⟨mid, steps, _, _, h | h | h⟩ <;>
    rw [h] <;> simp

/- Helper lemmas characterizing the two mutators.  In each statement,
the selectBranch precondition run for a hidden node is abbreviated by
the conditional prefix. -/

theorem editMessage_failed (env : Env) (p : Props) (v : String) (r : Response)
    (hr : env.respond (Command.editMessage p.messageId v true) = SendResult.ok r)
    (hc : r.completed = false) :
    editMessage env p v =
      ((if p.hidden then (selectBranch env p).1 else []) ++
        [Event.cmd (Command.editMessage p.messageId v true),
         Event.log "Edit message failed:"], false) := by
  unfold editMessage
  cases hh : p.hidden <;> simp [selectBranch_flag, hr, hc]

theorem editMessage_ok (env : Env) (p : Props) (v : String) (r : Response)
    (hr : env.respond (Command.editMessage p.messageId v true) = SendResult.ok r)
    (hc : r.completed = true) :
    editMessage env p v =
      ((if p.hidden then (selectBranch env p).1 else []) ++
        [Event.cmd (Command.editMessage p.messageId v true),
         Event.sleep 2000, Event.fullRefresh], false) := by
  unfold editMessage
  cases hh : p.hidden <;> simp [selectBranch_flag, hr, hc]

theorem editMessage_reject (env : Env) (p : Props) (v : String)
    (hr : env.respond (Command.editMessage p.messageId v true) = SendResult.reject) :
    editMessage env p v =
      ((if p.hidden then (selectBranch env p).1 else []) ++
        [Event.cmd (Command.editMessage p.messageId v true)], true) := by
  unfold editMessage
  cases hh : p.hidden <;> simp [selectBranch_flag, hr]

theorem respondToMessage_failed (env : Env) (p : Props) (v : String) (r : Response)
    (hr : env.respond (Command.respondToMessage p.childrenIds v true) = SendResult.ok r)
    (hc : r.completed = false) :
    respondToMessage env p v =
      ((if p.hidden then (selectBranch env p).1 else []) ++
        [Event.cmd (Command.respondToMessage p.childrenIds v true),
         Event.log "Response message failed:"], false) := by
  unfold respondToMessage
  cases hh : p.hidden <;> simp [selectBranch_flag, hr, hc]

theorem respondToMessage_ok (env : Env) (p : Props) (v : String) (r : Response)
    (hr : env.respond (Command.respondToMessage p.childrenIds v true) = SendResult.ok r)
    (hc : r.completed = true) :
    respondToMessage env p v =
      ((if p.hidden then (selectBranch env p).1 else []) ++
        [Event.cmd (Command.respondToMessage p.childrenIds v true),
         Event.sleep 2000, Event.fullRefresh], false) := by
  unfold respondToMessage
  cases hh : p.hidden <;> simp [selectBranch_flag, hr, hc]

theorem respondToMessage_reject (env : Env) (p : Props) (v : String)
    (hr : env.respond (Command.respondToMessage p.childrenIds v true) = SendResult.reject) :
    respondToMessage env p v =
      ((if p.hidden then (selectBranch env p).1 else []) ++
        [Event.cmd (Command.respondToMessage p.childrenIds v true)], true) := by
  unfold respondToMessage
  cases hh : p.hidden <;> simp [selectBranch_flag, hr]

/-- The hidden-node selectBranch prefix of a mutator never contains the
full refresh. -/
theorem pre_no_fullRefresh (env : Env) (p : Props) :
    Event.fullRefresh ∉ (if p.hidden then (selectBranch env p).1 else []) := by
  cases p.hidden
  · simp
  · simpa using selectBranch_no_fullRefresh env p

/-- The hidden-node selectBranch prefix of a mutator never contains a
settle delay. -/
theorem pre_no_sleep (env : Env) (p : Props) (ms : Nat) :
    Event.sleep ms ∉ (if p.hidden then (selectBranch env p).1 else []) := by
  cases p.hidden
  · simp
  · simpa using selectBranch_no_sleep env p ms

/-- handleSend with a non-blank draft whose dispatched mutator resolves
without throwing: the trace is the selectBranch trace, the mutator
trace, then the cleanup triple, and the Pending Edit State is reset. -/
theorem handleSend_resolved (env : Env) (p : Props) (st : EditState) (mres : List Event × Bool)
    (hd : ¬ jsTrim st.inputValue = "")
    (hm : (if p.role = some "user" then editMessage env p st.inputValue
           else if p.role = some "assistant" then respondToMessage env p st.inputValue
           else ([], false)) = mres)
    (hflag : mres.2 = false) :
    handleSend env p st =
      ((selectBranch env p).1 ++ mres.1 ++
         [Event.closeInput, Event.clearDraft, Event.fullRefresh],
       EditState.mk false "", false) := by
  unfold handleSend
  rw [if_neg hd]
  simp only [selectBranch_flag, Bool.false_eq_true, if_false]
  rw [hm]
  simp only [hflag, Bool.false_eq_true, if_false]

/-- handleSend with a non-blank draft whose dispatched mutator throws
(transport rejection of the mutation send): the cleanup is skipped and
the Pending Edit State is left unchanged. -/
theorem handleSend_thrown (env : Env) (p : Props) (st : EditState) (mres : List Event × Bool)
    (hd : ¬ jsTrim st.inputValue = "")
    (hm : (if p.role = some "user" then editMessage env p st.inputValue
           else if p.role = some "assistant" then respondToMessage env p st.inputValue
           else ([], false)) = mres)
    (hflag : mres.2 = true) :
    handleSend env p st = ((selectBranch env p).1 ++ mres.1, st, true) := by
  unfold handleSend
  rw [if_neg hd]
  simp only [selectBranch_flag, Bool.false_eq_true, if_false]
  rw [hm]
  simp only [hflag, if_true]

/-- Claim C1: for a present node reference with a plan returned by the
planner (in particular any non-empty plan), selectBranch sends exactly
one executeSteps command, before any goToTarget command; goToTarget is
sent only when the executeSteps response resolved with completed=true;
and the structural-refresh notifier runs between the two commands,
only on completed=true. -/
theorem C1_selectBranch_protocol (env : Env) (p : Props) (mid : String) (steps : List Step)
    (hm : p.messageId = some mid) (hp : env.planner mid = some steps)
    (hne : steps ≠ []) : C1Concl env p mid steps := by
  unfold C1Concl
  cases hr : env.respond (Command.executeSteps steps true) with
  | reject =>
    refine ⟨[Event.log "Error executing steps:"], ?_, ?_, ?_, ?_, ?_⟩
    · rw [selectBranch_execReject env p mid steps hm hp hr]
    · intro s b; simp
    · rintro ⟨tgt, htgt⟩; simp at htgt
    · intro hcomp; simp [completedOf, hr] at hcomp
    · intro _; simp
  | ok r =>
    cases hc : r.completed with
    | false =>
      refine ⟨[Event.log "Error executing steps:"], ?_, ?_, ?_, ?_, ?_⟩
      · rw [selectBranch_execFailed env p mid steps r hm hp hr hc]
      · intro s b; simp
      · rintro ⟨tgt, htgt⟩; simp at htgt
      · intro hcomp; simp [completedOf, hr, hc] at hcomp
      · intro _; simp
    | true =>
      cases hg : env.respond (Command.goToTarget mid) with
      | reject =>
        refine ⟨[Event.structuralRefresh, Event.cmd (Command.goToTarget mid),
                 Event.log "Error executing steps:"], ?_, ?_, ?_, ?_, ?_⟩
        · rw [selectBranch_gotoReject env p mid steps r hm hp hr hc hg]
        · intro s b; simp
        · intro _; simp [completedOf, hr, hc]
        · intro _; exact ⟨[Event.log "Error executing steps:"], rfl⟩
        · intro hfalse; simp [completedOf, hr, hc] at hfalse
      | ok r2 =>
        refine ⟨[Event.structuralRefresh, Event.cmd (Command.goToTarget mid)], ?_, ?_, ?_, ?_, ?_⟩
        · rw [selectBranch_success env p mid steps r r2 hm hp hr hc hg]
        · intro s b; simp
        · intro _; simp [completedOf, hr, hc]
        · intro _; exact ⟨[], rfl⟩
        · intro hfalse; simp [completedOf, hr, hc] at hfalse

/-- Witness for claim C1 at a concrete successful run. -/
theorem C1_selectBranch_protocol_witness :
    propsUserVisible.messageId = some "m1" ∧
    envAllOk.planner "m1" = some ["step1"] ∧
    (["step1"] : List Step) ≠ [] ∧
    C1Concl envAllOk propsUserVisible "m1" ["step1"] :=
  ⟨rfl, rfl, by decide,
   C1_selectBranch_protocol envAllOk propsUserVisible "m1" ["step1"] rfl rfl (by decide)⟩

/-- Claim C2 counterexample: for a hidden user node with a non-empty
draft, the send flow invokes selectBranch twice (once directly from
handleSend and once from the precondition inside editMessage), not
exactly once. -/
theorem C2_hidden_counterexample :
    (handleSend envAllOk propsUserHidden stOpen).1.countP isBranchSelectCall = 2 ∧
    ¬ (handleSend envAllOk propsUserHidden stOpen).1.countP isBranchSelectCall = 1 := by
  decide

/-- Claim C2 (amended): for a non-blank draft and a node that is
already visible (props.hidden false), handleSend invokes selectBranch
exactly once, that invocation fully resolves before the single
role-specific mutation command is sent, and no further selectBranch
invocation occurs; when the node is hidden the mutator runs
selectBranch a second time, so the restriction to visible nodes is
necessary. -/
theorem C2_selectOnce_amended (env : Env) (p : Props) (st : EditState)
    (hd : ¬ jsTrim st.inputValue = "")
    (hh : p.hidden = false)
    (hr : p.role = some "user" ∨ p.role = some "assistant") :
    C2Concl env p st := by
  unfold C2Concl
  rcases hr with hu | ha
  · have hm2 : (if p.role = some "user" then editMessage env p st.inputValue
               else if p.role = some "assistant" then respondToMessage env p st.inputValue
               else ([], false)) = editMessage env p st.inputValue := if_pos hu
    cases hresp : env.respond (Command.editMessage p.messageId st.inputValue true) with
    | reject =>
      have hmut := editMessage_reject env p st.inputValue hresp
      have hhs := handleSend_thrown env p st (editMessage env p st.inputValue) hd hm2
        (by rw [hmut])
      refine ⟨(editMessage env p st.inputValue).1, ?_,
        selectBranch_one_marker env p, selectBranch_no_mutation env p, ?_, ?_⟩
      · rw [hhs]
      · rw [hmut]; simp [hh, isBranchSelectCall, List.countP_cons]
      · rw [hmut]; simp [hh, isMutationCmd, List.countP_cons]
    | ok r =>
      cases hc : r.completed with
      | false =>
        have hmut := editMessage_failed env p st.inputValue r hresp hc
        have hhs := handleSend_resolved env p st (editMessage env p st.inputValue) hd hm2
          (by rw [hmut])
        refine ⟨(editMessage env p st.inputValue).1 ++
            [Event.closeInput, Event.clearDraft, Event.fullRefresh], ?_,
          selectBranch_one_marker env p, selectBranch_no_mutation env p, ?_, ?_⟩
        · rw [hhs]; simp [List.append_assoc]
        · rw [hmut]; simp [hh, isBranchSelectCall, List.countP_cons, List.countP_append]
        · rw [hmut]; simp [hh, isMutationCmd, List.countP_cons, List.countP_append]
      | true =>
        have hmut := editMessage_ok env p st.inputValue r hresp hc
        have hhs := handleSend_resolved env p st (editMessage env p st.inputValue) hd hm2
          (by rw [hmut])
        refine ⟨(editMessage env p st.inputValue).1 ++
            [Event.closeInput, Event.clearDraft, Event.fullRefresh], ?_,
          selectBranch_one_marker env p, selectBranch_no_mutation env p, ?_, ?_⟩
        · rw [hhs]; simp [List.append_assoc]
        · rw [hmut]; simp [hh, isBranchSelectCall, List.countP_cons, List.countP_append]
        · rw [hmut]; simp [hh, isMutationCmd, List.countP_cons, List.countP_append]
  · have hm2 : (if p.role = some "user" then editMessage env p st.inputValue
               else if p.role = some "assistant" then respondToMessage env p st.inputValue
               else ([], false)) = respondToMessage env p st.inputValue := by
      rw [if_neg (by simp [ha]), if_pos ha]
    cases hresp : env.respond (Command.respondToMessage p.childrenIds st.inputValue true) with
    | reject =>
      have hmut := respondToMessage_reject env p st.inputValue hresp
      have hhs := handleSend_thrown env p st (respondToMessage env p st.inputValue) hd hm2
        (by rw [hmut])
      refine ⟨(respondToMessage env p st.inputValue).1, ?_,
        selectBranch_one_marker env p, selectBranch_no_mutation env p, ?_, ?_⟩
      · rw [hhs]
      · rw [hmut]; simp [hh, isBranchSelectCall, List.countP_cons]
      · rw [hmut]; simp [hh, isMutationCmd, List.countP_cons]
    | ok r =>
      cases hc : r.completed with
      | false =>
        have hmut := respondToMessage_failed env p st.inputValue r hresp hc
        have hhs := handleSend_resolved env p st (respondToMessage env p st.inputValue) hd hm2
          (by rw [hmut])
        refine ⟨(respondToMessage env p st.inputValue).1 ++
            [Event.closeInput, Event.clearDraft, Event.fullRefresh], ?_,
          selectBranch_one_marker env p, selectBranch_no_mutation env p, ?_, ?_⟩
        · rw [hhs]; simp [List.append_assoc]
        · rw [hmut]; simp [hh, isBranchSelectCall, List.countP_cons, List.countP_append]
        · rw [hmut]; simp [hh, isMutationCmd, List.countP_cons, List.countP_append]
      | true =>
        have hmut := respondToMessage_ok env p st.inputValue r hresp hc
        have hhs := handleSend_resolved env p st (respondToMessage env p st.inputValue) hd hm2
          (by rw [hmut])
        refine ⟨(respondToMessage env p st.inputValue).1 ++
            [Event.closeInput, Event.clearDraft, Event.fullRefresh], ?_,
          selectBranch_one_marker env p, selectBranch_no_mutation env p, ?_, ?_⟩
        · rw [hhs]; simp [List.append_assoc]
        · rw [hmut]; simp [hh, isBranchSelectCall, List.countP_cons, List.countP_append]
        · rw [hmut]; simp [hh, isMutationCmd, List.countP_cons, List.countP_append]

/-- Witness for the amended claim C2 at a concrete visible user node. -/
theorem C2_selectOnce_amended_witness :
    ¬ jsTrim stOpen.inputValue = "" ∧
    propsUserVisible.hidden = false ∧
    propsUserVisible.role = some "user" ∧
    C2Concl envAllOk propsUserVisible stOpen :=
  ⟨by decide, rfl, rfl,
   C2_selectOnce_amended envAllOk propsUserVisible stOpen (by decide) rfl (Or.inl rfl)⟩

/-- Claim C3 counterexample: with a present node reference and a
planner returning a present but empty step list, selectBranch does send
a command, namely executeSteps with an empty step list; an empty array
is truthy in JavaScript, so the early-return guard does not fire. -/
theorem C3_emptyPlan_counterexample :
    Event.cmd (Command.executeSteps [] true) ∈ (selectBranch envEmptyPlan propsUserVisible).1 ∧
    sentCommands (selectBranch envEmptyPlan propsUserVisible).1 ≠ [] := by
  decide

/-- Claim C3 (amended): with an absent node reference, or with a
planner returning an absent (null or undefined) plan, selectBranch
completes without throwing and sends no command over the Command
Channel, and two successive such calls send no command on either
call. -/
theorem C3_noCommands_amended (env : Env) (p : Props)
    (h : p.messageId = none ∨ ∃ mid, p.messageId = some mid ∧ env.planner mid = none) :
    sentCommands (selectBranch env p).1 = [] ∧
    sentCommands ((selectBranch env p).1 ++ (selectBranch env p).1) = [] ∧
    (selectBranch env p).2 = false := by
  have htr : selectBranch env p = ([Event.branchSelectCall], false) := by
    rcases h with hm | ⟨mid, hm, hp⟩
    · exact selectBranch_absent env p hm
    · exact selectBranch_noPlan env p mid hm hp
  rw [htr]
  exact ⟨rfl, rfl, rfl⟩

/-- Witness for the amended claim C3 with an absent plan. -/
theorem C3_noCommands_amended_witness :
    (propsUserVisible.messageId = some "m1" ∧ envNoPlan.planner "m1" = none) ∧
    sentCommands (selectBranch envNoPlan propsUserVisible).1 = [] ∧
    sentCommands ((selectBranch envNoPlan propsUserVisible).1 ++
      (selectBranch envNoPlan propsUserVisible).1) = [] ∧
    (selectBranch envNoPlan propsUserVisible).2 = false :=
  ⟨⟨rfl, rfl⟩,
   C3_noCommands_amended envNoPlan propsUserVisible (Or.inr ⟨"m1", rfl, rfl⟩)⟩

/-- Claim C4 counterexample: in the end-to-end scenario (role user,
non-blank draft, planner returning one step, executeSteps and
editMessage both resolving with completed=true) but with the node
hidden, the observable order differs from the claimed one: the
executeSteps, structural-refresh and goToTarget triple occurs a second
time, issued by the branch-selection precondition inside editMessage. -/
theorem C4_order_counterexample :
    ¬ observable (handleSend envAllOk propsUserHidden stFixed).1 =
        C4Order "m1" "step1" "fixed text" := by
  decide

/-- Claim C4 (amended): in the end-to-end scenario with role user, a
non-blank draft, a visible node (props.hidden false), a planner
returning one step, and executeSteps, goToTarget and editMessage all
resolving, with completed=true for executeSteps and editMessage, the
observable call order is exactly: executeSteps, structural refresh,
goToTarget, editMessage, the 2000 ms settle delay, full refresh, the
Pending Edit State cleanup, then the full refresh a second time. -/
theorem C4_endToEnd_amended (env : Env) (p : Props) (st : EditState) (mid : String)
    (s : Step) (r1 r2 r3 : Response)
    (hm : p.messageId = some mid)
    (hrole : p.role = some "user")
    (hh : p.hidden = false)
    (hd : ¬ jsTrim st.inputValue = "")
    (hp : env.planner mid = some [s])
    (hex : env.respond (Command.executeSteps [s] true) = SendResult.ok r1)
    (hc1 : r1.completed = true)
    (hg : env.respond (Command.goToTarget mid) = SendResult.ok r2)
    (hed : env.respond (Command.editMessage p.messageId st.inputValue true) = SendResult.ok r3)
    (hc3 : r3.completed = true) :
    observable (handleSend env p st).1 = C4Order mid s st.inputValue := by
  have hsel := selectBranch_success env p mid [s] r1 r2 hm hp hex hc1 hg
  have hmut := editMessage_ok env p st.inputValue r3 hed hc3
  have hm2 : (if p.role = some "user" then editMessage env p st.inputValue
             else if p.role = some "assistant" then respondToMessage env p st.inputValue
             else ([], false)) = editMessage env p st.inputValue := if_pos hrole
  have hhs := handleSend_resolved env p st (editMessage env p st.inputValue) hd hm2
    (by rw [hmut])
  rw [hhs]
  simp [observable, C4Order, isBranchSelectCall, hsel, hmut, hh, hm]

/-- Witness for the amended claim C4 at the concrete scenario. -/
theorem C4_endToEnd_amended_witness :
    propsUserVisible.messageId = some "m1" ∧
    propsUserVisible.role = some "user" ∧
    propsUserVisible.hidden = false ∧
    ¬ jsTrim stFixed.inputValue = "" ∧
    envAllOk.planner "m1" = some ["step1"] ∧
    envAllOk.respond (Command.executeSteps ["step1"] true) = SendResult.ok respOk ∧
    respOk.completed = true ∧
    envAllOk.respond (Command.goToTarget "m1") = SendResult.ok respOk ∧
    envAllOk.respond
      (Command.editMessage propsUserVisible.messageId stFixed.inputValue true) =
      SendResult.ok respOk ∧
    observable (handleSend envAllOk propsUserVisible stFixed).1 =
      C4Order "m1" "step1" "fixed text" :=
  ⟨rfl, rfl, rfl, by decide, rfl, rfl, rfl, rfl, rfl,
   C4_endToEnd_amended envAllOk propsUserVisible stFixed "m1" "step1" respOk respOk respOk
     rfl rfl rfl (by decide) rfl rfl rfl rfl rfl rfl⟩

/-- Claim C5: when the mutation response resolves with completed=false,
neither editMessage nor respondToMessage fires the full node-list
refresh or waits the settle delay; each logs its failure line and
returns without throwing. -/
theorem C5_failedMutation_noRefresh (env : Env) (p : Props) (v : String) (r1 r2 : Response)
    (h1 : env.respond (Command.editMessage p.messageId v true) = SendResult.ok r1)
    (hc1 : r1.completed = false)
    (h2 : env.respond (Command.respondToMessage p.childrenIds v true) = SendResult.ok r2)
    (hc2 : r2.completed = false) :
    Event.fullRefresh ∉ (editMessage env p v).1 ∧
    (∀ ms, Event.sleep ms ∉ (editMessage env p v).1) ∧
    Event.log "Edit message failed:" ∈ (editMessage env p v).1 ∧
    (editMessage env p v).2 = false ∧
    Event.fullRefresh ∉ (respondToMessage env p v).1 ∧
    (∀ ms, Event.sleep ms ∉ (respondToMessage env p v).1) ∧
    Event.log "Response message failed:" ∈ (respondToMessage env p v).1 ∧
    (respondToMessage env p v).2 = false := by
  rw [editMessage_failed env p v r1 h1 hc1, respondToMessage_failed env p v r2 h2 hc2]
  refine ⟨?_, ?_, ?_, rfl, ?_, ?_, ?_, rfl⟩
  · simp [List.mem_append, pre_no_fullRefresh env p]
  · intro ms; simp [List.mem_append, pre_no_sleep env p ms]
  · simp [List.mem_append]
  · simp [List.mem_append, pre_no_fullRefresh env p]
  · intro ms; simp [List.mem_append, pre_no_sleep env p ms]
  · simp [List.mem_append]

/-- Witness for claim C5 at a concrete logically failing orchestrator. -/
theorem C5_failedMutation_noRefresh_witness :
    envMutFail.respond (Command.editMessage propsUserVisible.messageId "draft" true) =
      SendResult.ok respFail ∧
    respFail.completed = false ∧
    envMutFail.respond (Command.respondToMessage propsUserVisible.childrenIds "draft" true) =
      SendResult.ok respFail ∧
    Event.fullRefresh ∉ (editMessage envMutFail propsUserVisible "draft").1 ∧
    Event.fullRefresh ∉ (respondToMessage envMutFail propsUserVisible "draft").1 :=
  ⟨rfl, rfl, rfl,
   (C5_failedMutation_noRefresh envMutFail propsUserVisible "draft" respFail respFail
      rfl rfl rfl rfl).1,
   (C5_failedMutation_noRefresh envMutFail propsUserVisible "draft" respFail respFail
      rfl rfl rfl rfl).2.2.2.2.1⟩

/-- Claim C6: with a non-blank draft, when the role-specific mutation
command resolves (with any completion flag, in particular
completed=false), handleSend clears the Pending Edit State (input
closed, draft emptied) and then fires the full node-list refresh once
more, after the mutator trace. -/
theorem C6_cleanup_unconditional (env : Env) (p : Props) (st : EditState) (r : Response)
    (hd : ¬ jsTrim st.inputValue = "")
    (hmut : (p.role = some "user" ∧
               env.respond (Command.editMessage p.messageId st.inputValue true) =
                 SendResult.ok r) ∨
            (p.role = some "assistant" ∧
               env.respond (Command.respondToMessage p.childrenIds st.inputValue true) =
                 SendResult.ok r)) :
    (handleSend env p st).2.1 = EditState.mk false "" ∧
    (handleSend env p st).2.2 = false ∧
    ∃ mtrace,
      (handleSend env p st).1 =
        (selectBranch env p).1 ++ mtrace ++
          [Event.closeInput, Event.clearDraft, Event.fullRefresh] := by
  rcases hmut with ⟨hrole, hresp⟩ | ⟨hrole, hresp⟩
  · have hm2 : (if p.role = some "user" then editMessage env p st.inputValue
               else if p.role = some "assistant" then respondToMessage env p st.inputValue
               else ([], false)) = editMessage env p st.inputValue := if_pos hrole
    have hflag : (editMessage env p st.inputValue).2 = false := by
      cases hc : r.completed
      · rw [editMessage_failed env p st.inputValue r hresp hc]
      · rw [editMessage_ok env p st.inputValue r hresp hc]
    have hhs := handleSend_resolved env p st (editMessage env p st.inputValue) hd hm2 hflag
    rw [hhs]
    exact ⟨rfl, rfl, (editMessage env p st.inputValue).1, rfl⟩
  · have hm2 : (if p.role = some "user" then editMessage env p st.inputValue
               else if p.role = some "assistant" then respondToMessage env p st.inputValue
               else ([], false)) = respondToMessage env p st.inputValue := by
      rw [if_neg (by simp [hrole]), if_pos hrole]
    have hflag : (respondToMessage env p st.inputValue).2 = false := by
      cases hc : r.completed
      · rw [respondToMessage_failed env p st.inputValue r hresp hc]
      · rw [respondToMessage_ok env p st.inputValue r hresp hc]
    have hhs := handleSend_resolved env p st (respondToMessage env p st.inputValue) hd hm2 hflag
    rw [hhs]
    exact ⟨rfl, rfl, (respondToMessage env p st.inputValue).1, rfl⟩

/-- Witness for claim C6 at a concrete run whose mutation resolves with
completed=false: the cleanup still happens. -/
theorem C6_cleanup_unconditional_witness :
    ¬ jsTrim stOpen.inputValue = "" ∧
    propsUserVisible.role = some "user" ∧
    envMutFail.respond
      (Command.editMessage propsUserVisible.messageId stOpen.inputValue true) =
      SendResult.ok respFail ∧
    (handleSend envMutFail propsUserVisible stOpen).2.1 = EditState.mk false "" :=
  ⟨by decide, rfl, rfl,
   (C6_cleanup_unconditional envMutFail propsUserVisible stOpen respFail (by decide)
      (Or.inl ⟨rfl, rfl⟩)).1⟩

/-- Claim C7 counterexample: when executeSteps resolves with
completed=true and the goToTarget send then rejects (a transport
failure inside the executeSteps plus goToTarget pair), the failure is
caught and logged, but the structural refresh has already fired: a
refresh does occur under a transport failure. -/
theorem C7_gotoReject_counterexample :
    Event.structuralRefresh ∈ (selectBranch envGotoReject propsUserVisible).1 ∧
    Event.log "Error executing steps:" ∈ (selectBranch envGotoReject propsUserVisible).1 := by
  decide

/-- Claim C7 (amended): selectBranch catches every transport failure of
its executeSteps plus goToTarget pair, logs it, and never rethrows to
the caller; it never fires the full refresh; when the executeSteps send
itself rejects no refresh fires at all; but when the goToTarget send
rejects after completed=true, the structural refresh has already fired
before that send. -/
theorem C7_transportFailure_amended (env : Env) (p : Props) (mid : String) (steps : List Step)
    (hm : p.messageId = some mid) (hp : env.planner mid = some steps) :
    C7Concl env p mid steps := by
  refine ⟨selectBranch_flag env p, selectBranch_no_fullRefresh env p, ?_, ?_⟩
  · intro hr
    rw [selectBranch_execReject env p mid steps hm hp hr]
  · intro r hr hc hg
    rw [selectBranch_gotoReject env p mid steps r hm hp hr hc hg]

/-- Witness for the amended claim C7 at a concrete goToTarget-rejecting
orchestrator. -/
theorem C7_transportFailure_amended_witness :
    propsUserVisible.messageId = some "m1" ∧
    envGotoReject.planner "m1" = some ["step1"] ∧
    C7Concl envGotoReject propsUserVisible "m1" ["step1"] :=
  ⟨rfl, rfl,
   C7_transportFailure_amended envGotoReject propsUserVisible "m1" ["step1"] rfl rfl⟩

/-- Claim C8: with a draft that trims to the empty string, handleSend
performs no event at all (in particular sends no command), leaves the
Pending Edit State exactly as it was, and does not throw. -/
theorem C8_blankDraft_noop (env : Env) (p : Props) (st : EditState)
    (h : jsTrim st.inputValue = "") :
    handleSend env p st = ([], st, false) := by
  unfold handleSend
  rw [if_pos h]

/-- Witness for claim C8 on a whitespace-only draft in an open panel. -/
theorem C8_blankDraft_noop_witness :
    jsTrim "   " = "" ∧
    handleSend envAllOk propsUserVisible (EditState.mk true "   ") =
      ([], EditState.mk true "   ", false) :=
  ⟨by decide,
   C8_blankDraft_noop envAllOk propsUserVisible (EditState.mk true "   ") (by decide)⟩

/-- startSubchat under a transport rejection: log only, no throw. -/
theorem startSubchat_reject (env : Env) (p : Props)
    (hr : env.respond (Command.createSubchat p.messageId) = SendResult.reject) :
    startSubchat env p =
      ([Event.cmd (Command.createSubchat p.messageId),
        Event.log "Error starting subchat:"], false) := by
  unfold startSubchat
  simp [hr]

/-- startSubchat under a success=false response: the command only. -/
theorem startSubchat_failed (env : Env) (p : Props) (r : Response)
    (hr : env.respond (Command.createSubchat p.messageId) = SendResult.ok r)
    (hs : r.success = false) :
    startSubchat env p = ([Event.cmd (Command.createSubchat p.messageId)], false) := by
  unfold startSubchat
  simp [hr, hs]

/-- startSubchat under a success=true response: the command, then the
subchat tab is opened. -/
theorem startSubchat_opened (env : Env) (p : Props) (r : Response)
    (hr : env.respond (Command.createSubchat p.messageId) = SendResult.ok r)
    (hs : r.success = true) :
    startSubchat env p =
      ([Event.cmd (Command.createSubchat p.messageId),
        Event.openTab (subchatUrl p.messageId r.subchatId)], false) := by
  unfold startSubchat
  simp [hr, hs]

/-- Claim C9: startSubchat never rethrows; a tab is opened only when
the createSubchat response resolved with success=true; on success=false
the trace is exactly the createSubchat command (no tab, no further
action); on a transport rejection the trace is the command followed by
the log line only. -/
theorem C9_subchatFailure_noAction (env : Env) (p : Props) :
    (startSubchat env p).2 = false ∧
    (∀ url, Event.openTab url ∈ (startSubchat env p).1 →
       ∃ r, env.respond (Command.createSubchat p.messageId) = SendResult.ok r ∧
         r.success = true) ∧
    (∀ r, env.respond (Command.createSubchat p.messageId) = SendResult.ok r →
       r.success = false →
       (startSubchat env p).1 = [Event.cmd (Command.createSubchat p.messageId)]) ∧
    (env.respond (Command.createSubchat p.messageId) = SendResult.reject →
       (startSubchat env p).1 =
         [Event.cmd (Command.createSubchat p.messageId),
          Event.log "Error starting subchat:"]) := by
  cases hr : env.respond (Command.createSubchat p.messageId) with
  | reject =>
    rw [startSubchat_reject env p hr]
    refine ⟨rfl, ?_, ?_, fun _ => rfl⟩
    · intro url hmem; simp at hmem
    · intro r2 hr2 _; simp at hr2
  | ok r =>
    cases hs : r.success with
    | false =>
      rw [startSubchat_failed env p r hr hs]
      refine ⟨rfl, ?_, ?_, ?_⟩
      · intro url hmem; simp at hmem
      · intro r2 _ _; rfl
      · intro hrej; simp at hrej
    | true =>
      rw [startSubchat_opened env p r hr hs]
      refine ⟨rfl, ?_, ?_, ?_⟩
      · intro url _; exact ⟨r, rfl, hs⟩
      · intro r2 hr2 hs2
        cases hr2
        rw [hs] at hs2
        cases hs2
      · intro hrej; simp at hrej

/-- Witness for claim C9 at a concrete success=false response. -/
theorem C9_subchatFailure_noAction_witness :
    envSubFail.respond (Command.createSubchat propsUserVisible.messageId) =
      SendResult.ok respFail ∧
    respFail.success = false ∧
    (startSubchat envSubFail propsUserVisible).1 =
      [Event.cmd (Command.createSubchat propsUserVisible.messageId)] :=
  ⟨rfl, rfl,
   (C9_subchatFailure_noAction envSubFail propsUserVisible).2.2.1 respFail rfl rfl⟩

/-- Claim C10: handleActionClick always shows the input panel and
initializes the draft deterministically from the props: for role user
it is prefilled with the existing message text (empty when the message
is absent), for any other role it starts empty. -/
theorem C10_actionClick_init (p : Props) (st : EditState) :
    (handleActionClick p st).showInput = true ∧
    (p.role = some "user" → (handleActionClick p st).inputValue = p.message.getD "") ∧
    (p.role ≠ some "user" → (handleActionClick p st).inputValue = "") := by
  refine ⟨rfl, ?_, ?_⟩ <;> intro h <;> simp [handleActionClick, h]

/-- Witness for claim C10 on a user node carrying a message. -/
theorem C10_actionClick_init_witness :
    (handleActionClick propsUserVisible stOpen).showInput = true ∧
    (handleActionClick propsUserVisible stOpen).inputValue =
      Option.getD propsUserVisible.message "" :=
  ⟨(C10_actionClick_init propsUserVisible stOpen).1,
   (C10_actionClick_init propsUserVisible stOpen).2.1 rfl⟩

end ChatTree
